import Mathlib

/-!
Shallow embedding of the realtime dispatcher (`src/realtime.c`) and the
crate library (`src/library.c`) of xwax-headless, with theorems checking
the natural-language specification against the code.

Conventions:
* machine integers are modelled as `Nat`/`Int`;
* fallible C functions returning `-1`/`0` are modelled as functions
  returning `Int × State` (the state is returned unchanged on failure);
* the observable actions of the dispatcher (semaphore operations, thread
  spawn/join, controller/device callbacks) are recorded as event traces;
* the thread-local-storage key holding the "this thread is realtime"
  marker is modelled as a function `Nat → Bool` from thread ids.
-/

/-- Observable events of the realtime manager: startup-gate signalling
(`sem_post`), controller/device dispatch callbacks, device lifecycle
callbacks, semaphore lifecycle, thread spawn and join. The `Nat` index is
the registration index of the controller or device. -/
inductive Ev where
  | post
  | ctl (n : Nat)
  | dev (n : Nat)
  | devStart (n : Nat)
  | devStop (n : Nat)
  | semInit
  | semWait
  | semDestroy
  | spawn
  | join
deriving DecidableEq, Repr

/-- Outcome of one `poll()` call: success (carrying the indices of the wait
handles that were signalled, which the code never inspects), transient
interruption (`EINTR`), or a fatal error. -/
inductive PollRes where
  | ok (ready : List Nat)
  | eintr
  | err
deriving DecidableEq, Repr

/-- A device, as seen by `rt_add_device`: `device_pollfds` either fails
(`none`) or yields this fixed list of wait handles. -/
structure Device where
  pollHandles : Option (List Nat)
deriving DecidableEq, Repr

/-- A controller handle; controllers carry no data the dispatcher reads. -/
structure Controller where
  tag : Nat
deriving DecidableEq, Repr

/-- The `struct rt` state: `finished` flag, device sequence `dv[0..ndv)`,
controller sequence `ctl[0..nctl)` and aggregated poll table `pt[0..npt)`.
The C arrays have fixed capacities declared in `realtime.h` (not under
`src/`); the lists model the filled prefixes and the capacities are passed
to the registration functions as parameters. -/
structure RT where
  finished : Bool
  dv : List Device
  ctl : List Controller
  pt : List Nat
deriving DecidableEq, Repr

/-- Byte size of an object pointer (`struct device *`, `struct controller *`)
on the LP64 platforms this program targets. Used to translate the C
expressions `sizeof rt->dv` and `sizeof rt->ctl`, which yield the byte size
of the whole pointer array, i.e. capacity times pointer size. -/
def sizeofPtr : Nat := 8

/-- Byte size of `struct pollfd` (`int fd; short events; short revents`),
used to translate `sizeof(rt->pt)`. -/
def sizeofPollfd : Nat := 8

/-- Modelled from the spec: the Device capability `poll_handles()`
(`device_pollfds` in `device.h`/`device.c`, which are not under `src/`).
Per section 4.2 it is fallible; it fills at most `space` slots of the
caller's poll table and fails if the device cannot produce its handles or
they do not fit. -/
def device_pollfds (d : Device) (space : Nat) : Option (List Nat) :=
  match d.pollHandles with
  | none => none
  | some hs => if hs.length ≤ space then some hs else none

/-- `rt_init`: clean state, `finished = false`, all counts zero. -/
def rt_init : RT :=
  { finished := false, dv := [], ctl := [], pt := [] }

/-- `rt_add_device` (src/realtime.c:181-207). `capDev` and `capWait` are the
element capacities of `rt->dv` and `rt->pt`; the C guard compares
`rt->ndv` against `sizeof rt->dv` (bytes, i.e. `capDev * sizeofPtr`), and
the space handed to `device_pollfds` is `sizeof(rt->pt) - rt->npt`
(i.e. `capWait * sizeofPollfd - npt`). Returns `-1` with the state
unchanged on failure, else `0` with handles and device appended. -/
def rt_add_device (capDev capWait : Nat) (rt : RT) (d : Device) : Int × RT :=
  if rt.dv.length = capDev * sizeofPtr then (-1, rt)
  else
    match device_pollfds d (capWait * sizeofPollfd - rt.pt.length) with
    | none => (-1, rt)
    | some hs => (0, { rt with pt := rt.pt ++ hs, dv := rt.dv ++ [d] })

/-- `rt_add_controller` (src/realtime.c:215-230); the guard compares
`rt->nctl` against `sizeof rt->ctl` (bytes). -/
def rt_add_controller (capCtl : Nat) (rt : RT) (c : Controller) : Int × RT :=
  if rt.ctl.length = capCtl * sizeofPtr then (-1, rt)
  else (0, { rt with ctl := rt.ctl ++ [c] })

/-- The OS scheduling environment seen by `raise_priority`: whether
`sched_getparam` succeeds, the `SCHED_FIFO` maximum priority, and whether
`sched_setscheduler` succeeds. -/
structure SchedEnv where
  getparamOk : Bool
  maxPri : Int
  setschedOk : Bool
deriving DecidableEq, Repr

/-- The fixed realtime priority requested (src/realtime.c:29). -/
def REALTIME_PRIORITY : Int := 80

/-- Thread-local marker table right after `rt_global_init`
(src/realtime.c:37-52): every thread's marker holds the default `false`. -/
def initialTls : Nat → Bool := fun _ => false

/-- `raise_priority` (src/realtime.c:77-108): fails (`-1`) if
`sched_getparam` fails, if `REALTIME_PRIORITY` exceeds the platform
maximum, or if `sched_setscheduler` fails; on success (`0`) it sets the
calling thread's thread-local realtime marker to `true`. -/
def raise_priority (env : SchedEnv) (tls : Nat → Bool) (self : Nat) :
    Int × (Nat → Bool) :=
  if env.getparamOk = false then (-1, tls)
  else if env.maxPri < REALTIME_PRIORITY then (-1, tls)
  else if env.setschedOk = false then (-1, tls)
  else (0, Function.update tls self true)

/-- `rt_not_allowed` (src/realtime.c:60-69): reads the calling thread's
marker; result `true` means the process aborts with a diagnostic. -/
def rt_not_allowed (tls : Nat → Bool) (self : Nat) : Bool :=
  tls self

/-- One dispatch cycle (src/realtime.c:138-142): every controller in
registration order, then every device in registration order. -/
def cycleEvents (nctl ndv : Nat) : List Ev :=
  (List.range nctl).map Ev.ctl ++ (List.range ndv).map Ev.dev

/-- The dispatch loop (src/realtime.c:127-143). Each schedule entry models
one loop iteration: the `Bool` is the value of `rt->finished` observed at
the loop guard (the flag may be set concurrently by `rt_stop`), and the
`PollRes` is the outcome of `poll`. `eintr` retries, a fatal poll error
returns from the thread, success dispatches a full cycle. An exhausted
schedule ends the observation. -/
def rtLoop (nctl ndv : Nat) : List (Bool × PollRes) → List Ev
  | [] => []
  | (fin, p) :: rest =>
    if fin then []
    else
      match p with
      | PollRes.eintr => rtLoop nctl ndv rest
      | PollRes.err => []
      | PollRes.ok _ => cycleEvents nctl ndv ++ rtLoop nctl ndv rest

/-- `rt_main` (src/realtime.c:114-144): attempt elevation; on failure set
`finished`; signal the startup gate (`sem_post`) exactly there; run the
loop only if `finished` is still false. Returns the event trace, the
`finished` value as written by this procedure, and the updated
thread-local table. -/
def rt_main (env : SchedEnv) (tls : Nat → Bool) (self : Nat) (rt : RT)
    (sched : List (Bool × PollRes)) : List Ev × Bool × (Nat → Bool) :=
  let r := raise_priority env tls self
  let fin := rt.finished || (r.1 == -1)
  (Ev.post :: (if fin then [] else rtLoop rt.ctl.length rt.dv.length sched),
    fin, r.2)

/-- `rt_start` (src/realtime.c:241-285). If the poll table is non-empty:
init the gate semaphore, spawn the dispatch thread, wait on the gate,
destroy it; if `finished` was set (elevation failed in the thread, whose
id is `tid`), join the thread and fail; otherwise, and also when no thread
is needed, call `device_start` on every device in registration order and
succeed. `semInitOk`/`createOk` model `sem_init`/`pthread_create`. -/
def rt_start (env : SchedEnv) (tls : Nat → Bool) (tid : Nat)
    (semInitOk createOk : Bool) (rt : RT) : List Ev × Int × RT :=
  if 0 < rt.pt.length then
    if semInitOk = false then ([Ev.semInit], -1, rt)
    else if createOk = false then ([Ev.semInit, Ev.spawn, Ev.semDestroy], -1, rt)
    else
      let fin := rt.finished || ((raise_priority env tls tid).1 == -1)
      if fin then
        ([Ev.semInit, Ev.spawn, Ev.semWait, Ev.semDestroy, Ev.join], -1,
          { rt with finished := fin })
      else
        ([Ev.semInit, Ev.spawn, Ev.semWait, Ev.semDestroy] ++
            (List.range rt.dv.length).map Ev.devStart,
          0, { rt with finished := fin })
  else
    ((List.range rt.dv.length).map Ev.devStart, 0, rt)

/-- `rt_stop` (src/realtime.c:291-306): set `finished`, stop every device
in registration order, join the dispatch thread if one was launched. -/
def rt_stop (rt : RT) : List Ev × RT :=
  ((List.range rt.dv.length).map Ev.devStop ++
      (if 0 < rt.pt.length then [Ev.join] else []),
    { rt with finished := true })

/-!
Crate library (`src/library.c`). Allocation failures (`malloc`, `strdup`,
`realloc`) are abstracted away: the model covers the successful mutations
the claims are about. `qsort` is modelled as a comparison sort; only
sortedness and permutation of its result are used.
-/

/-- A crate: deep-copied name, fixed flag, record listing (record
pathnames; `listing_init` gives the empty listing). -/
structure Crate where
  name : String
  is_fixed : Bool
  listing : List String
deriving DecidableEq, Repr

/-- Sign of `strcmp`, over the linear order on strings. -/
def strcmpInt (a b : String) : Int :=
  if a < b then -1 else if a = b then 0 else 1

/-- `crate_cmp` (src/library.c:61-69): fixed crates sort before non-fixed
ones, and within a group crates are ordered by name comparison. -/
def crate_cmp (a b : Crate) : Int :=
  if a.is_fixed && !b.is_fixed then -1
  else if !a.is_fixed && b.is_fixed then 1
  else strcmpInt a.name b.name

/-- The order used by `qsort` via `qcompar`: `crate_cmp a b <= 0`. -/
def crate_le (a b : Crate) : Prop := crate_cmp a b ≤ 0

instance : DecidableRel crate_le := fun a b =>
  inferInstanceAs (Decidable (crate_cmp a b ≤ 0))

/-- `sort_crates` (src/library.c:80-83): sort by `crate_cmp`. -/
def sort_crates (l : List Crate) : List Crate :=
  List.insertionSort crate_le l

/-- `struct library_t`: the crate pointer array `crate[0..crates)`. -/
structure Library where
  crates : List Crate
deriving DecidableEq, Repr

/-- `crate_init` (src/library.c:39-51): fresh crate with a copy of the
name, the given fixed flag, and an empty listing. -/
def crate_init (name : String) (is_fixed : Bool) : Crate :=
  { name := name, is_fixed := is_fixed, listing := [] }

/-- `add_crate` (src/library.c:88-104): append the crate and re-sort. -/
def add_crate (lib : Library) (c : Crate) : Library :=
  { crates := sort_crates (lib.crates ++ [c]) }

/-- `get_crate` (src/library.c:107-117): first crate whose name compares
equal, else none. -/
def get_crate (lib : Library) (name : String) : Option Crate :=
  lib.crates.find? (fun c => decide (c.name = name))

/-- `use_crate` (src/library.c:122-151): return the existing crate of that
name if there is one (the library and the `is_fixed` argument are then
unused), otherwise create, register and return a new crate. -/
def use_crate (lib : Library) (name : String) (is_fixed : Bool) :
    Crate × Library :=
  match get_crate lib name with
  | some c => (c, lib)
  | none =>
    let c := crate_init name is_fixed
    (c, add_crate lib c)

/-- Name of the fixed crate holding all records (src/library.c:34). -/
def CRATE_ALL : String := "All records"

/-- `library_init` (src/library.c:154-168): empty library, then register
the fixed `CRATE_ALL` crate. -/
def library_init : Library :=
  add_crate { crates := [] } (crate_init CRATE_ALL true)

/-!  Helper lemmas about the dispatch loop. -/

lemma post_not_mem_cycleEvents (nctl ndv : Nat) :
    Ev.post ∉ cycleEvents nctl ndv := by
  simp [cycleEvents]

lemma post_not_mem_rtLoop (nctl ndv : Nat) :
    ∀ sched : List (Bool × PollRes), Ev.post ∉ rtLoop nctl ndv sched := by
  intro sched
  induction sched with
  | nil => simp [rtLoop]
  | cons e rest ih =>
    obtain ⟨fin, p⟩ := e
    by_cases hf : fin
    · simp [rtLoop, hf]
    · cases p <;>
        simp [rtLoop, hf, ih, post_not_mem_cycleEvents nctl ndv]

lemma rtLoop_ok_blocks (nctl ndv : Nat) (rds : List (List Nat)) :
    rtLoop nctl ndv (rds.map fun rd => (false, PollRes.ok rd)) =
      (List.replicate rds.length (cycleEvents nctl ndv)).flatten := by
  induction rds with
  | nil => rfl
  | cons rd rest ih => simp [rtLoop, ih, List.replicate_succ]

/-- C1: on every dispatch cycle (each successful return from `poll`), all
registered controllers are handled in registration order strictly before
any device, then all registered devices are handled in registration
order, whatever wait handles were signalled, for any number `k ≥ 1` of
cycles: the dispatch-thread trace is the gate signal followed by `k`
identical cycle blocks, each block being the controllers in order
followed by the devices in order. -/
theorem rt_main_cycle_order (env : SchedEnv) (tls : Nat → Bool) (tid : Nat)
    (rt : RT) (k : Nat) (ready : Nat → List Nat)
    (helev : (raise_priority env tls tid).1 = 0)
    (hfin : rt.finished = false) (hk : 1 ≤ k) :
    (rt_main env tls tid rt
        ((List.range k).map fun i => (false, PollRes.ok (ready i)))).1 =
      Ev.post ::
        (List.replicate k
          ((List.range rt.ctl.length).map Ev.ctl ++
            (List.range rt.dv.length).map Ev.dev)).flatten := by
  have hmap : ((List.range k).map fun i => (false, PollRes.ok (ready i))) =
      ((List.range k).map ready).map fun rd => (false, PollRes.ok rd) := by
    simp [List.map_map, Function.comp]
  have hblocks := rtLoop_ok_blocks rt.ctl.length rt.dv.length
    ((List.range k).map ready)
  simp only [List.length_map, List.length_range, List.map_map] at hblocks
  simp [rt_main, helev, hfin, hmap, hblocks, cycleEvents]

/-- Witness for C1 at a concrete input: one controller, two devices, two
cycles with different signalled handles. -/
theorem rt_main_cycle_order_witness :
    (rt_main ⟨true, 99, true⟩ initialTls 0
        ⟨false, [⟨some [3]⟩, ⟨some []⟩], [⟨0⟩], [3]⟩
        ((List.range 2).map fun i => (false, PollRes.ok [i]))).1 =
      Ev.post ::
        (List.replicate 2
          ((List.range 1).map Ev.ctl ++ (List.range 2).map Ev.dev)).flatten := by
  exact rt_main_cycle_order ⟨true, 99, true⟩ initialTls 0
    ⟨false, [⟨some [3]⟩, ⟨some []⟩], [⟨0⟩], [3]⟩ 2 (fun i => [i])
    (by decide) rfl (by decide)

/-- C2 counter-evidence: the capacity guards in `rt_add_device` and
`rt_add_controller` compare the element count against `sizeof` of the
pointer array, which is the capacity in bytes, not elements. With element
capacity 1 (so the byte-size guard fires only at count 8), a manager whose
device sequence is already at its capacity limit accepts a further device:
the call returns success and grows the count to 2, writing past the
capacity bound; likewise for controllers. -/
theorem rt_add_capacity_check_bypassed :
    (rt_add_device 1 1
        { finished := false, dv := [⟨some []⟩], ctl := [], pt := [] }
        ⟨some []⟩).1 = 0 ∧
    (rt_add_device 1 1
        { finished := false, dv := [⟨some []⟩], ctl := [], pt := [] }
        ⟨some []⟩).2.dv.length = 2 ∧
    (rt_add_controller 1
        { finished := false, dv := [], ctl := [⟨0⟩], pt := [] }
        ⟨1⟩).1 = 0 ∧
    (rt_add_controller 1
        { finished := false, dv := [], ctl := [⟨0⟩], pt := [] }
        ⟨1⟩).2.ctl.length = 2 := by
  decide

/-- C3: if the wait table is non-empty and priority elevation fails in the
dispatch thread, `rt_start` returns failure, no device's `device_start` is
invoked, the dispatch thread is joined (its trace ends at the join, which
happens before `rt_start` returns), and the dispatch thread itself only
signalled the gate and dispatched nothing. -/
theorem rt_start_elev_failure (env : SchedEnv) (tls : Nat → Bool) (tid : Nat)
    (rt : RT) (sched : List (Bool × PollRes))
    (hnp : 0 < rt.pt.length)
    (helev : (raise_priority env tls tid).1 = -1) :
    rt_start env tls tid true true rt =
        ([Ev.semInit, Ev.spawn, Ev.semWait, Ev.semDestroy, Ev.join], -1,
          { rt with finished := true }) ∧
    (∀ n, Ev.devStart n ∉ (rt_start env tls tid true true rt).1) ∧
    (rt_main env tls tid rt sched).1 = [Ev.post] := by
  refine ⟨?_, ?_, ?_⟩
  · simp [rt_start, hnp, helev]
  · simp [rt_start, hnp, helev]
  · simp [rt_main, helev]

/-- Witness for C3 at a concrete input: the OS refuses elevation
(`sched_setscheduler` fails), one device contributing one handle. -/
theorem rt_start_elev_failure_witness :
    rt_start ⟨true, 99, false⟩ initialTls 0 true true
        ⟨false, [⟨some [4]⟩], [], [4]⟩ =
      ([Ev.semInit, Ev.spawn, Ev.semWait, Ev.semDestroy, Ev.join], -1,
        { finished := true, dv := [⟨some [4]⟩], ctl := [], pt := [4] }) := by
  exact (rt_start_elev_failure ⟨true, 99, false⟩ initialTls 0
    ⟨false, [⟨some [4]⟩], [], [4]⟩ [] (by decide) (by decide)).1

/-- C4: on every execution of the dispatch thread procedure the startup
gate is signalled exactly once — the trace starts with the gate signal and
never signals again — whether elevation succeeded or failed; and whenever
`finished` is true at the loop entry point (in particular when elevation
failed), the procedure returns immediately after signalling, invoking no
controller or device operation. -/
theorem rt_main_gate_once (env : SchedEnv) (tls : Nat → Bool) (tid : Nat)
    (rt : RT) (sched : List (Bool × PollRes)) :
    (∃ rest, (rt_main env tls tid rt sched).1 = Ev.post :: rest ∧
        Ev.post ∉ rest) ∧
    ((rt.finished || ((raise_priority env tls tid).1 == -1)) = true →
        (rt_main env tls tid rt sched).1 = [Ev.post]) := by
  constructor
  · refine ⟨_, rfl, ?_⟩
    by_cases hf : (rt.finished || ((raise_priority env tls tid).1 == -1)) = true
    · simp [hf]
    · simp only [Bool.not_eq_true] at hf
      simp [hf, post_not_mem_rtLoop]
  · intro h
    simp [rt_main, h]

/-- Witness for C4 at a concrete input: elevation fails (`sched_getparam`
fails), so `finished` is true at loop entry and the trace is just the gate
signal, even with a non-trivial schedule. -/
theorem rt_main_gate_once_witness :
    (rt_main ⟨false, 99, true⟩ initialTls 0
        ⟨false, [⟨some [4]⟩], [⟨0⟩], [4]⟩
        [(false, PollRes.ok [0])]).1 = [Ev.post] := by
  exact (rt_main_gate_once ⟨false, 99, true⟩ initialTls 0
    ⟨false, [⟨some [4]⟩], [⟨0⟩], [4]⟩ [(false, PollRes.ok [0])]).2 (by decide)

/-- C5: if the aggregated wait table is empty, `rt_start` spawns no thread
and touches no startup-gate semaphore, yet still invokes `device_start` on
every registered device in registration order and returns success with the
state unchanged. -/
theorem rt_start_no_thread (env : SchedEnv) (tls : Nat → Bool) (tid : Nat)
    (semInitOk createOk : Bool) (rt : RT) (h : rt.pt.length = 0) :
    rt_start env tls tid semInitOk createOk rt =
        ((List.range rt.dv.length).map Ev.devStart, 0, rt) ∧
    Ev.spawn ∉ (rt_start env tls tid semInitOk createOk rt).1 ∧
    Ev.semInit ∉ (rt_start env tls tid semInitOk createOk rt).1 ∧
    Ev.semWait ∉ (rt_start env tls tid semInitOk createOk rt).1 := by
  refine ⟨?_, ?_, ?_, ?_⟩ <;> simp [rt_start, h]

/-- Witness for C5 at a concrete input: two devices, none contributing
wait handles. -/
theorem rt_start_no_thread_witness :
    rt_start ⟨true, 99, true⟩ initialTls 0 true true
        ⟨false, [⟨some []⟩, ⟨some []⟩], [], []⟩ =
      ([Ev.devStart 0, Ev.devStart 1], 0,
        ⟨false, [⟨some []⟩, ⟨some []⟩], [], []⟩) := by
  have h := (rt_start_no_thread ⟨true, 99, true⟩ initialTls 0 true true
    ⟨false, [⟨some []⟩, ⟨some []⟩], [], []⟩ rfl).1
  simpa using h

/-- C6: `rt_add_device` is atomic on failure. For any manager state within
capacity (device count strictly below the element capacity), if the
device's `device_pollfds` fails the call returns the error with the state
exactly unchanged (device, controller and wait-table sequences intact);
and on success, with the handles fitting the wait table, the returned
handles are appended to the wait table and the device to the device
sequence. -/
theorem rt_add_device_atomic (capDev capWait : Nat) (rt : RT) (d : Device)
    (hdv : rt.dv.length < capDev) :
    (d.pollHandles = none →
        rt_add_device capDev capWait rt d = (-1, rt)) ∧
    (∀ hs, d.pollHandles = some hs →
        rt.pt.length + hs.length ≤ capWait →
        rt_add_device capDev capWait rt d =
          (0, { rt with pt := rt.pt ++ hs, dv := rt.dv ++ [d] })) := by
  have hguard : ¬ rt.dv.length = capDev * sizeofPtr := by
    simp only [sizeofPtr]
    omega
  constructor
  · intro hnone
    simp [rt_add_device, hguard, device_pollfds, hnone]
  · intro hs hsome hfit
    have hsp : hs.length ≤ capWait * sizeofPollfd - rt.pt.length := by
      simp only [sizeofPollfd]
      omega
    simp [rt_add_device, hguard, device_pollfds, hsome, hsp]

/-- Witness for C6 at a concrete input: a manager holding one device and
one wait handle, capacities 2, adding a device that contributes handle 9. -/
theorem rt_add_device_atomic_witness :
    rt_add_device 2 2 ⟨false, [⟨some [4]⟩], [], [4]⟩ ⟨some [9]⟩ =
      (0, ⟨false, [⟨some [4]⟩, ⟨some [9]⟩], [], [4, 9]⟩) := by
  exact (rt_add_device_atomic 2 2 ⟨false, [⟨some [4]⟩], [], [4]⟩ ⟨some [9]⟩
    (by decide)).2 [9] rfl (by decide)

/-- C7: the `finished` flag is monotonic: it is `false` right after
`rt_init`, and every core operation (device and controller registration,
`rt_start`, the dispatch procedure `rt_main`, `rt_stop`) either leaves it
unchanged or sets it to `true`; none resets it from `true` to `false`. -/
theorem rt_finished_monotone :
    rt_init.finished = false ∧
    (∀ capDev capWait rt d, rt.finished = true →
        (rt_add_device capDev capWait rt d).2.finished = true) ∧
    (∀ capCtl rt c, rt.finished = true →
        (rt_add_controller capCtl rt c).2.finished = true) ∧
    (∀ env tls tid semInitOk createOk rt, rt.finished = true →
        (rt_start env tls tid semInitOk createOk rt).2.2.finished = true) ∧
    (∀ env tls tid rt sched, rt.finished = true →
        (rt_main env tls tid rt sched).2.1 = true) ∧
    (∀ rt, (rt_stop rt).2.finished = true) := by
  refine ⟨rfl, ?_, ?_, ?_, ?_, ?_⟩
  · intro capDev capWait rt d h
    simp only [rt_add_device]
    split
    · exact h
    · split
      · exact h
      · exact h
  · intro capCtl rt c h
    simp only [rt_add_controller]
    split
    · exact h
    · exact h
  · intro env tls tid semInitOk createOk rt h
    simp only [rt_start]
    split
    · split
      · exact h
      · split
        · exact h
        · split <;> simp_all
    · exact h
  · intro env tls tid rt sched h
    simp [rt_main, h]
  · intro rt
    simp [rt_stop]

/-- Witness for C7 at concrete inputs: registration operations on a state
with `finished = true` keep it `true`. -/
theorem rt_finished_monotone_witness :
    (rt_add_device 4 4 ⟨true, [], [], []⟩ ⟨some [1]⟩).2.finished = true := by
  exact rt_finished_monotone.2.1 4 4 ⟨true, [], [], []⟩ ⟨some [1]⟩ rfl

/-- C8: the realtime-context assertion aborts exactly when the calling
thread's marker is true; after a successful `raise_priority` the dispatch
thread's own marker is set (and the assertion called there aborts), after
a failed one the marker table is unchanged; every other thread, and every
thread before elevation, holds the default `false` and the assertion is a
no-op; and elevation succeeds or fails, never anything else. -/
theorem rt_not_allowed_iff_marker (env : SchedEnv) (tid other : Nat)
    (hne : other ≠ tid) :
    (∀ tls : Nat → Bool, ∀ t, rt_not_allowed tls t = true ↔ tls t = true) ∧
    ((raise_priority env initialTls tid).1 = 0 →
        rt_not_allowed (raise_priority env initialTls tid).2 tid = true) ∧
    ((raise_priority env initialTls tid).1 = -1 →
        (raise_priority env initialTls tid).2 = initialTls) ∧
    rt_not_allowed (raise_priority env initialTls tid).2 other = false ∧
    rt_not_allowed initialTls tid = false ∧
    ((raise_priority env initialTls tid).1 = 0 ∨
        (raise_priority env initialTls tid).1 = -1) := by
  obtain ⟨gp, mx, ss⟩ := env
  by_cases hgp : gp = false
  · simp [raise_priority, rt_not_allowed, initialTls, hgp]
  · by_cases hmx : mx < REALTIME_PRIORITY
    · simp [raise_priority, rt_not_allowed, initialTls, hgp, hmx]
    · by_cases hss : ss = false
      · simp [raise_priority, rt_not_allowed, initialTls, hgp, hmx, hss]
      · simp [raise_priority, rt_not_allowed, initialTls, hgp, hmx, hss,
          Function.update_same, Function.update_noteq hne]

/-- Witness for C8 at a concrete input: an environment where elevation
succeeds; the dispatch thread is thread 1, the caller thread 0. -/
theorem rt_not_allowed_iff_marker_witness :
    rt_not_allowed (raise_priority ⟨true, 99, true⟩ initialTls 1).2 1 = true := by
  exact (rt_not_allowed_iff_marker ⟨true, 99, true⟩ 1 0 (by decide)).2.1
    (by decide)

/-!  Helper lemmas about the crate order. -/

lemma strcmpInt_nonpos (a b : String) : strcmpInt a b ≤ 0 ↔ a ≤ b := by
  unfold strcmpInt
  by_cases hlt : a < b
  · rw [if_pos hlt]
    exact iff_of_true (by omega) hlt.le
  · by_cases heq : a = b
    · subst heq
      rw [if_neg hlt, if_pos rfl]
      exact iff_of_true (by omega) le_rfl
    · have hnle : ¬ a ≤ b := by
        intro hab
        rcases lt_or_eq_of_le hab with h | h
        · exact hlt h
        · exact heq h
      rw [if_neg hlt, if_neg heq]
      exact iff_of_false (by omega) hnle

lemma crate_le_iff (a b : Crate) :
    crate_le a b ↔
      ((a.is_fixed = true ∧ b.is_fixed = false) ∨
        (a.is_fixed = b.is_fixed ∧ a.name ≤ b.name)) := by
  unfold crate_le crate_cmp
  cases ha : a.is_fixed <;> cases hb : b.is_fixed <;>
    simp [ha, hb, strcmpInt_nonpos]

instance : IsTotal Crate crate_le :=
  ⟨fun a b => by
    rw [crate_le_iff, crate_le_iff]
    cases ha : a.is_fixed <;> cases hb : b.is_fixed <;> simp [ha, hb] <;>
      exact le_total _ _⟩

instance : IsTrans Crate crate_le :=
  ⟨fun a b c hab hbc => by
    rw [crate_le_iff] at hab hbc ⊢
    rcases hab with ⟨ha, hb⟩ | ⟨hab1, hab2⟩ <;>
      rcases hbc with ⟨hb2, hc⟩ | ⟨hbc1, hbc2⟩
    · rw [hb] at hb2
      exact absurd hb2 (by simp)
    · exact Or.inl ⟨ha, by rw [← hbc1]; exact hb⟩
    · exact Or.inl ⟨by rw [hab1]; exact hb2, hc⟩
    · exact Or.inr ⟨hab1.trans hbc1, hab2.trans hbc2⟩⟩

/-- The library invariant the spec implies: fixed crates precede non-fixed
crates, and within each group crates are in (non-strict) name order. -/
def crateSorted (l : List Crate) : Prop :=
  l.Pairwise (fun a b =>
    (a.is_fixed = true ∧ b.is_fixed = false) ∨
      (a.is_fixed = b.is_fixed ∧ a.name ≤ b.name))

/-- C9: the crate array is sorted after every successful mutation — after
any `add_crate`, after `use_crate` (given a sorted library, as every
reachable library is), and after `library_init`, whose result moreover
holds exactly the fixed `CRATE_ALL` crate, so that crate is present and
first. -/
theorem library_crates_sorted :
    (∀ lib c, crateSorted (add_crate lib c).crates) ∧
    (∀ lib name fx, crateSorted lib.crates →
        crateSorted (use_crate lib name fx).2.crates) ∧
    library_init.crates = [crate_init CRATE_ALL true] ∧
    crateSorted library_init.crates := by
  have hsorted : ∀ l : List Crate, crateSorted (sort_crates l) := by
    intro l
    have h := List.sorted_insertionSort crate_le l
    exact List.Pairwise.imp (fun hab => (crate_le_iff _ _).1 hab) h
  refine ⟨?_, ?_, ?_, ?_⟩
  · intro lib c
    exact hsorted (lib.crates ++ [c])
  · intro lib name fx h
    rcases hg : get_crate lib name with _ | c
    · simpa [use_crate, hg] using hsorted (lib.crates ++ [crate_init name fx])
    · simpa [use_crate, hg] using h
  · rfl
  · simp [crateSorted, library_init, add_crate, sort_crates,
      List.insertionSort]

/-- Witness for C9 at a concrete input: adding a non-fixed crate to the
freshly initialised library keeps the array sorted. -/
theorem library_crates_sorted_witness :
    crateSorted (use_crate library_init "Techno" false).2.crates := by
  exact library_crates_sorted.2.1 library_init "Techno" false
    library_crates_sorted.2.2.2

lemma get_crate_add_new (lib : Library) (c : Crate) (name : String)
    (hnone : get_crate lib name = none) (hc : c.name = name) :
    get_crate (add_crate lib c) name = some c := by
  have hnotin := List.find?_eq_none.1 hnone
  simp only [get_crate, add_crate, sort_crates]
  have hperm := List.perm_insertionSort crate_le (lib.crates ++ [c])
  have hmem : c ∈ List.insertionSort crate_le (lib.crates ++ [c]) :=
    hperm.mem_iff.2 (List.mem_append.2 (Or.inr (List.mem_singleton.2 rfl)))
  rcases hf : List.find? (fun x => decide (x.name = name))
      (List.insertionSort crate_le (lib.crates ++ [c])) with _ | x
  · exact absurd (decide_eq_true hc) (List.find?_eq_none.1 hf c hmem)
  · have hpx' := List.find?_some hf
    have hpx : x.name = name := of_decide_eq_true hpx'
    have hxmem : x ∈ lib.crates ++ [c] :=
      hperm.mem_iff.1 (List.mem_of_find?_eq_some hf)
    rcases List.mem_append.1 hxmem with hx | hx
    · exact absurd (decide_eq_true hpx) (hnotin x hx)
    · rw [List.mem_singleton.1 hx]

/-- C10: `use_crate` is idempotent in the crate name: if a crate of that
name exists, it is returned and the library is left unchanged, whatever
the `is_fixed` argument; consequently two successive `use_crate` calls
with the same name return the same crate and the second leaves the library
of the first unchanged. -/
theorem use_crate_idempotent :
    (∀ lib name fx c, get_crate lib name = some c →
        use_crate lib name fx = (c, lib)) ∧
    (∀ lib name fx fx2,
        use_crate (use_crate lib name fx).2 name fx2 = use_crate lib name fx) := by
  have hfirst : ∀ lib name fx c, get_crate lib name = some c →
      use_crate lib name fx = (c, lib) := by
    intro lib name fx c h
    simp [use_crate, h]
  refine ⟨hfirst, ?_⟩
  intro lib name fx fx2
  rcases hg : get_crate lib name with _ | c
  · have h1 : use_crate lib name fx =
        (crate_init name fx, add_crate lib (crate_init name fx)) := by
      simp [use_crate, hg]
    have h2 : get_crate (add_crate lib (crate_init name fx)) name =
        some (crate_init name fx) :=
      get_crate_add_new lib _ name hg rfl
    rw [h1]
    exact hfirst _ name fx2 _ h2
  · have h1 : use_crate lib name fx = (c, lib) := hfirst lib name fx c hg
    rw [h1]
    exact hfirst lib name fx2 c hg

/-- Witness for C10 at a concrete input: asking for `CRATE_ALL` (with a
different `is_fixed` argument) right after `library_init` returns the
existing fixed crate and leaves the library unchanged. -/
theorem use_crate_idempotent_witness :
    use_crate library_init CRATE_ALL false =
      (crate_init CRATE_ALL true, library_init) := by
  exact use_crate_idempotent.1 library_init CRATE_ALL false
    (crate_init CRATE_ALL true) (by decide)
